import Mathlib

/-!
Shallow embedding of the persistence/consistency layer of `backend.py`
(PopularAtacarejo/Candidatos): expiration, deduplication, the retention
sweep, record persistence, attachment storage and the catalog cache.

Modelling conventions:
* Timestamps are integers counting seconds; Python's `(now - d).days`
  (floor of the elapsed seconds over 86400) is `Int.fdiv` by 86400.
* A record's `enviado_em` JSON field is abstracted by `DateField`: the
  key can be absent (`missing`), present but rejected by
  `parse_iso_date` (`unparsable`), or parsed to an instant (`parsed t`).
* Network effects are passed in explicitly: each function takes the
  outcomes of the HTTP calls it performs (read results, statuses) as
  arguments and returns the requests it would issue.
* Only the record fields the persistence layer inspects are modelled
  (`cpf`, `vaga`, `enviado_em`, `status`, `arquivo_url`, `id`); the
  remaining form fields are carried opaquely by the real code.
* String normalisation (`re.sub`, `.lower()`, `.strip()`) is modelled
  over ASCII, matching the data the system itself writes.
-/

namespace Candidatos

/-- Seconds in one day; Python `timedelta.days` divides by this. -/
def secondsPerDay : Int := 86400

/-- Python `(now - sent).days`: floor division of the elapsed seconds.
`Int.fdiv` floors, exactly like `timedelta.days` for negative deltas. -/
def daysBetween (now sent : Int) : Int := Int.fdiv (now - sent) secondsPerDay

/-- State of the `enviado_em` field of a stored record, as the code
distinguishes it: key absent, present but `parse_iso_date` returns
`None`, or parsed to a timestamp `t` (seconds). -/
inductive DateField where
  | missing
  | unparsable
  | parsed (t : Int)
deriving DecidableEq, Repr

/-- The fields of a `candidatos.json` entry that the persistence layer
reads. `dict.get` with a default maps absent string fields to `""` and
an absent `arquivo_url` to `none`. -/
structure Candidate where
  cpf : String := ""
  vaga : String := ""
  enviado_em : DateField := .missing
  status : String := ""
  arquivo_url : Option String := none
  id : String := ""
deriving DecidableEq, Repr

/-- Python `re.sub(r'[^\d]', '', s)`: keep only digit characters. -/
def cleanCpf (s : String) : String := String.mk (s.data.filter Char.isDigit)

/-- The whitespace characters Python `str.strip()` removes (ASCII). -/
def pyIsSpace (c : Char) : Bool :=
  c == ' ' || c == '\t' || c == '\n' || c == '\r' || c == '\x0b' || c == '\x0c'

/-- Drop leading and trailing whitespace, as Python `str.strip()`. -/
def stripBoth (l : List Char) : List Char :=
  ((l.dropWhile pyIsSpace).reverse.dropWhile pyIsSpace).reverse

/-- Python `s.lower().strip()` as applied to position names. -/
def normVaga (s : String) : String :=
  String.mk (stripBoth (s.data.map Char.toLower))

/-- `is_candidate_expired` (backend.py lines 231-242): a record with no
`enviado_em` key or an unparsable date is never expired; otherwise it is
expired when the elapsed whole days reach 90 (inclusive). -/
def is_candidate_expired (now : Int) (c : Candidate) : Bool :=
  match c.enviado_em with
  | .missing => false
  | .unparsable => false
  | .parsed t => decide (90 ≤ daysBetween now t)

/-- The key comparison of `check_duplicate_candidate` (lines 488-492):
digits-only CPF equality and case-folded, stripped position equality. -/
def matchesKey (cpf vaga : String) (c : Candidate) : Bool :=
  cleanCpf c.cpf == cleanCpf cpf && normVaga c.vaga == normVaga vaga

/-- One iteration of the `check_duplicate_candidate` loop body (lines
488-501): a matching record flags a duplicate when its date parses to
an instant less than 90 whole days ago, or when the `enviado_em` key is
present but unparsable; a matching record with no `enviado_em` key at
all falls through without flagging anything. -/
def duplicate_entry_hit (now : Int) (cpf vaga : String) (c : Candidate) : Bool :=
  matchesKey cpf vaga c &&
    match c.enviado_em with
    | .missing => false
    | .unparsable => true
    | .parsed t => decide (daysBetween now t < 90)

/-- The scan over the existing records in `check_duplicate_candidate`
(lines 488-503): returns true on the first hit, false at the end. -/
def duplicate_scan (now : Int) (existing : List Candidate) (cpf vaga : String) : Bool :=
  existing.any (duplicate_entry_hit now cpf vaga)

/-- Outcome of the GET of `candidatos.json` inside
`get_existing_candidates` (lines 357-383): 200 with decoded content,
404 (with the result of the attempted file creation), any other status,
or a raised exception (network error or undecodable content). -/
inductive ReadOutcome where
  | ok (content : List Candidate)
  | notFound (created : Bool)
  | otherStatus
  | exception
deriving DecidableEq, Repr

/-- `get_existing_candidates` (lines 357-383): on a 200 response it
returns the decoded list, filtered to non-expired entries when
`clean_expired` is set; on 404 it attempts to create the file and
returns the empty list whether or not that works; any other status or
exception also yields the empty list. -/
def get_existing_candidates_model (r : ReadOutcome) (clean_expired : Bool) (now : Int) :
    List Candidate :=
  match r with
  | .ok cs => if clean_expired then cs.filter (fun c => !is_candidate_expired now c) else cs
  | .notFound _ => []
  | .otherStatus => []
  | .exception => []

/-- `get_candidatos_ativos` (lines 741-757): reads with
`clean_expired=True` and filters non-expired entries once more. -/
def get_candidatos_ativos_model (r : ReadOutcome) (now : Int) : List Candidate :=
  (get_existing_candidates_model r true now).filter (fun c => !is_candidate_expired now c)

/-- Whether `pat` is an initial segment of `s` (literal match). -/
def leadsWith : List Char → List Char → Bool
  | [], _ => true
  | _ :: _, [] => false
  | p :: ps, c :: cs => p == c && leadsWith ps cs

/-- Leftmost occurrence of the literal `pat` inside `s`; returns the
characters after that occurrence. -/
def searchAfter (pat : List Char) : List Char → Option (List Char)
  | [] => if leadsWith pat [] then some [] else none
  | c :: rest =>
    if leadsWith pat (c :: rest) then some ((c :: rest).drop pat.length)
    else searchAfter pat rest

/-- The path extraction of `clean_expired_candidates` (line 277):
Python `re.search(f"{BRANCH}/(.+)", file_url)` — the capture is the
(nonempty) text after the first occurrence of `BRANCH/`.  The branch
name is treated as a literal (the real branch, e.g. `main`, has no
regex metacharacters) and URLs are assumed newline-free. -/
def extract_file_path (branch url : String) : Option String :=
  match searchAfter (branch.data ++ ['/']) url.data with
  | some rest => if rest.isEmpty then none else some (String.mk rest)
  | none => none

/-- Result of a successful sweep (`clean_expired_candidates`, lines
244-323): the value returned, the record list written back, and the
attachment paths for which a delete call was issued. -/
structure SweepResult where
  removed : Nat
  newDocument : List Candidate
  deleteCalls : List String
deriving DecidableEq, Repr

/-- The partition loop of `clean_expired_candidates` (lines 268-284):
splits the records into (active, expired) and collects, for each
expired record having an `arquivo_url` with an extractable path, that
path for deletion. -/
def sweepPartition (now : Int) (branch : String) :
    List Candidate → List Candidate × List Candidate × List String
  | [] => ([], [], [])
  | c :: rest =>
    let acc := sweepPartition now branch rest
    if is_candidate_expired now c then
      match c.arquivo_url.bind (extract_file_path branch) with
      | some p => (acc.1, c :: acc.2.1, p :: acc.2.2)
      | none => (acc.1, c :: acc.2.1, acc.2.2)
    else (c :: acc.1, acc.2.1, acc.2.2)

/-- The successful path of `clean_expired_candidates` (lines 244-323):
partition the fetched records; with no expired record return 0 leaving
the document untouched and deleting nothing; otherwise issue one delete
call per collected path, rewrite the document to the active records
(with the sha fetched at the start) and return the expired count. -/
def sweepCore (now : Int) (branch : String) (candidates : List Candidate) : SweepResult :=
  if (sweepPartition now branch candidates).2.1.isEmpty then
    { removed := 0, newDocument := candidates, deleteCalls := [] }
  else
    { removed := (sweepPartition now branch candidates).2.1.length,
      newDocument := (sweepPartition now branch candidates).1,
      deleteCalls := (sweepPartition now branch candidates).2.2 }

/-- A document state of `candidatos.json` as the store would serve it:
decoded content plus the version token (`sha`) for that revision. -/
structure DocState where
  content : List Candidate
  sha : String
deriving DecidableEq, Repr

/-- Outcome of the separate sha lookup in `save_candidate` (lines
529-538): 200 with the sha, 404, or any other status / exception. -/
inductive ShaLookup where
  | ok (sha : String)
  | notFound
  | failed
deriving DecidableEq, Repr

/-- The `sha` variable after the lookup block: only a 200 sets it. -/
def sha_from_lookup : ShaLookup → Option String
  | .ok s => some s
  | .notFound => none
  | .failed => none

/-- The PUT issued on `candidatos.json`: the full new content and the
optional `sha` field attached to the request body. -/
structure PutRequest where
  newContent : List Candidate
  shaField : Option String
deriving DecidableEq, Repr

/-- The metadata assignment of `save_candidate` (lines 513-521): the
stored record gets the generated id, `enviado_em = now` and the initial
status `Novo`. -/
def mkStoredCandidate (input : Candidate) (now : Int) (genId : String) : Candidate :=
  { input with id := genId, enviado_em := .parsed now, status := "Novo" }

/-- `save_candidate` (lines 505-561) up to the PUT it issues.
`firstRead` is what `get_existing_candidates()` returned (that call
discards the response sha); `lookup` is the outcome of the second,
separate GET used only to obtain a sha.  The PUT is issued
unconditionally, carrying a `sha` field exactly when the lookup
returned 200 with a non-empty (Python-truthy) sha. -/
def save_candidate_model (firstRead : List Candidate) (lookup : ShaLookup)
    (input : Candidate) (now : Int) (genId : String) : Option PutRequest :=
  let stored := mkStoredCandidate input now genId
  let shaVal := sha_from_lookup lookup
  some { newContent := firstRead ++ [stored],
         shaField := match shaVal with
                     | some s => if s = "" then none else some s
                     | none => none }

/-- A catalog entry: `{"nome": ...}`. -/
structure Vaga where
  nome : String
deriving DecidableEq, Repr

/-- The nine-entry default list substituted by `get_vagas` (lines
692-702) when the GitHub fetch yields nothing. -/
def default_vagas : List Vaga :=
  [⟨"Auxiliar de Limpeza"⟩, ⟨"Vendedor"⟩, ⟨"Caixa"⟩, ⟨"Estoquista"⟩,
   ⟨"Repositor"⟩, ⟨"Atendente"⟩, ⟨"Gerente"⟩, ⟨"Supervisor"⟩,
   ⟨"Operador de Caixa"⟩]

/-- The four-entry fallback returned by the `except` branch of
`get_vagas` (lines 718-723). -/
def fallback_vagas : List Vaga :=
  [⟨"Auxiliar de Limpeza"⟩, ⟨"Vendedor"⟩, ⟨"Caixa"⟩, ⟨"Estoquista"⟩]

/-- Result of one `get_vagas` call: the response body and the cache
slot contents afterwards. -/
structure GetVagasResult where
  response : List Vaga
  cacheAfter : Option (List Vaga)
deriving DecidableEq, Repr

/-- `get_vagas` (lines 678-723).  `cache` is the TTL slot before the
call; `fetch` is `Except.ok` of whatever `get_vagas_from_github`
returned (that helper swallows its own errors and returns `[]` when
every network path fails), or `Except.error` when an unexpected
exception escapes the `try` block.  A cache hit is returned as is; on a
miss an empty fetch result is replaced by the nine-entry default, the
result is stored in the cache slot and returned; the exception branch
returns the four-entry fallback without touching the cache.  (The
`nome`-filter of lines 705-708 is the identity here because every
modelled entry carries `nome`.) -/
def get_vagas_model (cache : Option (List Vaga)) (fetch : Except Unit (List Vaga)) :
    GetVagasResult :=
  match cache with
  | some v => { response := v, cacheAfter := some v }
  | none =>
    match fetch with
    | .error _ => { response := fallback_vagas, cacheAfter := none }
    | .ok fetched =>
      let vagas_data := if fetched.isEmpty then default_vagas else fetched
      { response := vagas_data, cacheAfter := some vagas_data }

/-- A write issued against the content store. -/
inductive StoreAction where
  | put (path : String)
  | createFile (path : String)
deriving DecidableEq, Repr

/-- How `save_curriculum_to_github` can fail: the `ValueError` raised
by the size check, or the `Exception` raised on store failures. -/
inductive CurriculumError where
  | sizeLimit
  | storeFailure
deriving DecidableEq, Repr

/-- Store responses to the curriculum upload attempts: 200/201, 404
(missing parent folder), or any other status / raised exception. -/
inductive PutStatus where
  | created
  | notFound
  | otherError
deriving DecidableEq, Repr

/-- Outcomes of the store calls `save_curriculum_to_github` may make:
the first PUT, the folder-creating `create_github_file`, and the retry
PUT. -/
structure CurriculumEnv where
  firstPut : PutStatus
  createFolder : Bool
  secondPut : PutStatus
deriving DecidableEq, Repr

/-- The raw URL returned for a stored curriculum (lines 609, 621). -/
def raw_url (branch path : String) : String :=
  "https://raw.githubusercontent.com/PopularAtacarejo/Candidatos/" ++ branch ++ "/" ++ path

/-- `save_curriculum_to_github` (lines 563-632) from the size check on:
an attachment longer than 5*1024*1024 bytes raises the size
`ValueError` before any store call; otherwise the PUT is attempted,
a 404 triggers creating `curriculos/README.md` and exactly one retry,
and every remaining failure raises.  Returns the store actions issued,
in order, together with the result. -/
def save_curriculum_model (contentLen : Nat) (branch filePath : String)
    (env : CurriculumEnv) : List StoreAction × Except CurriculumError String :=
  if contentLen > 5 * 1024 * 1024 then ([], .error .sizeLimit)
  else
    match env.firstPut with
    | .created => ([.put filePath], .ok (raw_url branch filePath))
    | .notFound =>
      if env.createFolder then
        match env.secondPut with
        | .created =>
          ([.put filePath, .createFile "curriculos/README.md", .put filePath],
           .ok (raw_url branch filePath))
        | _ =>
          ([.put filePath, .createFile "curriculos/README.md", .put filePath],
           .error .storeFailure)
      else ([.put filePath, .createFile "curriculos/README.md"], .error .storeFailure)
    | .otherError => ([.put filePath], .error .storeFailure)

/-- Outcome of `enviar_curriculo` as seen by the caller: 409 duplicate,
400 from a `ValueError`, 500, or success. -/
inductive SubmitOutcome where
  | duplicate
  | validationError
  | serverError
  | accepted (url : String)
deriving DecidableEq, Repr

/-- The `try` block of `enviar_curriculo` (lines 808-864) after the
field validations: a positive duplicate check raises 409 at once; then
the curriculum is stored (its `ValueError` surfaces as 400, any other
exception as 500) and only on its success is `save_candidate` called.
The second component records whether `save_candidate` was invoked. -/
def enviar_model (dup : Bool) (curr : Except CurriculumError String) (saveOk : Bool) :
    SubmitOutcome × Bool :=
  if dup then (.duplicate, false)
  else
    match curr with
    | .error .sizeLimit => (.validationError, false)
    | .error .storeFailure => (.serverError, false)
    | .ok url => if saveOk then (.accepted url, true) else (.serverError, true)

/-- A record whose `enviado_em` key is absent, matching key `111` /
position `caixa`. -/
def missingDateCandidate : Candidate :=
  { cpf := "111", vaga := "caixa", enviado_em := .missing }

/-- A record whose `enviado_em` is present but unparsable, matching key
`111` / position `caixa`. -/
def unparsableDateCandidate : Candidate :=
  { cpf := "111", vaga := "caixa", enviado_em := .unparsable }

/-- An expired record (sent at instant 0) carrying no `arquivo_url`. -/
def expiredNoUrlCandidate : Candidate :=
  { cpf := "222", vaga := "caixa", enviado_em := .parsed 0 }

/-! ### Helper lemmas -/

/-- Strict 90-day window in whole days equals a strict bound in seconds. -/
lemma daysBetween_lt_90_iff (now t : Int) :
    daysBetween now t < 90 ↔ now - t < 90 * secondsPerDay := by
  unfold daysBetween secondsPerDay
  rw [Int.fdiv_eq_ediv _ (by norm_num)]
  omega

/-- Inclusive 90-day expiry in whole days equals a bound in seconds. -/
lemma le_daysBetween_90_iff (now t : Int) :
    90 ≤ daysBetween now t ↔ 90 * secondsPerDay ≤ now - t := by
  unfold daysBetween secondsPerDay
  rw [Int.fdiv_eq_ediv _ (by norm_num)]
  omega

/-- `enviar_model` reports a duplicate exactly when the duplicate check
was positive; no other branch produces the 409 outcome. -/
lemma enviar_model_duplicate_iff (dup : Bool) (curr : Except CurriculumError String)
    (saveOk : Bool) :
    (enviar_model dup curr saveOk).1 = .duplicate ↔ dup = true := by
  cases dup
  · cases curr with
    | error e => cases e <;> simp [enviar_model]
    | ok url => cases saveOk <;> simp [enviar_model]
  · simp [enviar_model]

/-- The sweep partition loop computed in closed form. -/
lemma sweepPartition_spec (now : Int) (branch : String) (cs : List Candidate) :
    sweepPartition now branch cs =
      (cs.filter (fun c => !is_candidate_expired now c),
       cs.filter (fun c => is_candidate_expired now c),
       cs.filterMap (fun c =>
         if is_candidate_expired now c then c.arquivo_url.bind (extract_file_path branch)
         else none)) := by
  induction cs with
  | nil => rfl
  | cons c rest ih =>
    by_cases h : is_candidate_expired now c = true
    · cases hurl : c.arquivo_url.bind (extract_file_path branch) <;>
        simp [sweepPartition, ih, h, hurl, List.filter_cons, List.filterMap_cons]
    · simp at h
      simp [sweepPartition, ih, h, List.filter_cons, List.filterMap_cons]

/-- Length of a `filterMap` counted by the predicate of yielding a value. -/
lemma length_filterMap_eq_countP {α β : Type} (f : α → Option β) (l : List α) :
    (l.filterMap f).length = l.countP (fun a => (f a).isSome) := by
  induction l with
  | nil => rfl
  | cons a rest ih =>
    cases h : f a <;> simp [List.filterMap_cons, List.countP_cons, h, ih]

/-- The sweep's successful path in closed form: removed count, the
rewritten document and the delete calls, as filters of the input. -/
lemma sweepCore_spec (now : Int) (branch : String) (cs : List Candidate) :
    sweepCore now branch cs =
      { removed := (cs.filter (fun c => is_candidate_expired now c)).length,
        newDocument := cs.filter (fun c => !is_candidate_expired now c),
        deleteCalls := cs.filterMap (fun c =>
          if is_candidate_expired now c then c.arquivo_url.bind (extract_file_path branch)
          else none) } := by
  by_cases h : (cs.filter (fun c => is_candidate_expired now c)).isEmpty
  · have hnil : cs.filter (fun c => is_candidate_expired now c) = [] :=
      List.isEmpty_iff.mp h
    have hall : ∀ a ∈ cs, is_candidate_expired now a = false := by
      intro a ha
      have := List.filter_eq_nil_iff.mp hnil a ha
      simpa using this
    have h2 : cs.filter (fun c => !is_candidate_expired now c) = cs := by
      rw [List.filter_eq_self]
      intro a ha
      simp [hall a ha]
    have h3 : cs.filterMap (fun c =>
        if is_candidate_expired now c then c.arquivo_url.bind (extract_file_path branch)
        else none) = [] := by
      rw [List.filterMap_eq_nil_iff]
      intro a ha
      simp [hall a ha]
    simp [sweepCore, sweepPartition_spec, h, hnil, h2, h3]
  · simp [sweepCore, sweepPartition_spec, h]

/-! ### Claim theorems -/

/-- Claim C1 (counterexample): a record whose `enviado_em` key is
absent entirely, although it matches the submission's normalized key
and position, is NOT treated as a duplicate — the submission is not
rejected as a duplicate, contradicting the claim that a missing
`submittedAt` fails closed. -/
theorem missing_date_record_not_rejected :
    (enviar_model (duplicate_scan 0 [missingDateCandidate] "111" "caixa")
        (Except.ok "url") true).1 ≠ SubmitOutcome.duplicate := by
  decide

/-- Claim C1 (amended): in the deduplication check, a matching record
whose `enviado_em` field is present but unparsable is treated as a
duplicate (fails closed); a matching record whose `enviado_em` key is
missing altogether contributes nothing to the scan. -/
theorem unparsable_date_fails_closed (now : Int) (cpf vaga : String)
    (existing : List Candidate) (c : Candidate) :
    (c ∈ existing → matchesKey cpf vaga c = true → c.enviado_em = .unparsable →
        duplicate_scan now existing cpf vaga = true) ∧
    (c.enviado_em = .missing → duplicate_entry_hit now cpf vaga c = false) := by
  constructor
  · intro hmem hkey hdate
    unfold duplicate_scan
    rw [List.any_eq_true]
    exact ⟨c, hmem, by simp [duplicate_entry_hit, hkey, hdate]⟩
  · intro hdate
    simp [duplicate_entry_hit, hdate]

/-- Claim C1 (witness): the amended claim evaluated on concrete
records: an unparsable-date match flags a duplicate, a missing-date
record does not hit. -/
theorem unparsable_date_fails_closed_witness :
    duplicate_scan 0 [unparsableDateCandidate] "111" "caixa" = true ∧
    duplicate_entry_hit 0 "111" "caixa" missingDateCandidate = false :=
  ⟨(unparsable_date_fails_closed 0 "111" "caixa" [unparsableDateCandidate]
      unparsableDateCandidate).1 (by simp) (by decide) rfl,
   (unparsable_date_fails_closed 0 "111" "caixa" [unparsableDateCandidate]
      missingDateCandidate).2 rfl⟩

/-- Claim C2 (counterexample): `save_candidate` does not take the
version token from the read that produced the collection — that read
discards the token, and a second, separate lookup supplies it.  When
the two reads observe different document revisions, the PUT carries the
second revision's token, not the token of the revision whose content is
being modified. -/
theorem save_candidate_token_from_second_read :
    ∃ put : PutRequest,
      save_candidate_model (DocState.mk [] "sha1").content (.ok "sha2") {} 0 "gid" =
        some put ∧
      put.shaField ≠ some (DocState.mk [] "sha1").sha := by
  refine ⟨_, rfl, ?_⟩
  decide

/-- Claim C2 (amended): `save_candidate` appends the stored record
(generated id, `enviado_em = now`, initial status `Novo`) to the
collection obtained by a first read, and attaches the version token
obtained by a second, separate lookup; when that lookup observes the
same document state as the first read (and its sha is non-empty), the
write does carry that state's token. -/
theorem save_candidate_append_and_token (doc : DocState) (input : Candidate)
    (now : Int) (genId : String) (hsha : doc.sha ≠ "") :
    save_candidate_model doc.content (.ok doc.sha) input now genId =
      some { newContent := doc.content ++ [mkStoredCandidate input now genId],
             shaField := some doc.sha } ∧
    (mkStoredCandidate input now genId).enviado_em = .parsed now ∧
    (mkStoredCandidate input now genId).status = "Novo" ∧
    (mkStoredCandidate input now genId).id = genId := by
  refine ⟨?_, rfl, rfl, rfl⟩
  simp [save_candidate_model, sha_from_lookup, hsha]

/-- Claim C2 (witness): the amended claim at a concrete document state. -/
theorem save_candidate_append_and_token_witness :
    save_candidate_model [] (.ok "abc") {} 0 "gid" =
      some { newContent := [mkStoredCandidate {} 0 "gid"], shaField := some "abc" } :=
  (save_candidate_append_and_token (DocState.mk [] "abc") {} 0 "gid" (by decide)).1

/-- Claim C3 (counterexample): a sweep over one expired record with no
`arquivo_url` returns 1 but issues 0 attachment-delete calls, refuting
"exactly K attachment-delete calls, one per expired record". -/
theorem sweep_delete_calls_not_per_expired :
    (sweepCore (90 * secondsPerDay) "main" [expiredNoUrlCandidate]).removed = 1 ∧
    (sweepCore (90 * secondsPerDay) "main" [expiredNoUrlCandidate]).deleteCalls.length = 0 := by
  decide

/-- Claim C3 (amended): a successful sweep over N records of which K
are expired (age at least 90 whole days, inclusive) returns K and
rewrites the document to exactly the N−K non-expired records, but it
issues one attachment-delete call per expired record whose
`arquivo_url` yields an extractable path after `BRANCH/` — expired
records without such a URL get no delete call. -/
theorem sweep_counts_and_rewrites (now : Int) (branch : String) (cs : List Candidate) :
    (sweepCore now branch cs).removed =
      (cs.filter (fun c => is_candidate_expired now c)).length ∧
    (sweepCore now branch cs).newDocument =
      cs.filter (fun c => !is_candidate_expired now c) ∧
    (sweepCore now branch cs).deleteCalls.length =
      cs.countP (fun c => is_candidate_expired now c &&
        (c.arquivo_url.bind (extract_file_path branch)).isSome) := by
  rw [sweepCore_spec]
  refine ⟨rfl, rfl, ?_⟩
  rw [length_filterMap_eq_countP]
  apply List.countP_congr
  intro c _
  by_cases h : is_candidate_expired now c = true <;> simp [h]

/-- Claim C4: a second submission of the same CPF/position pair is
rejected as a duplicate exactly when it happens strictly less than 90
days (in seconds) after the first; at exactly 90 days or later it is
not rejected as a duplicate.  The prior record is the one the first
submission stored (`enviado_em = t1`). -/
theorem dedup_window_strict (cpf vaga gid : String) (t1 now : Int)
    (curr : Except CurriculumError String) (saveOk : Bool) :
    ((enviar_model
        (duplicate_scan now [mkStoredCandidate { cpf := cpf, vaga := vaga } t1 gid] cpf vaga)
        curr saveOk).1 = .duplicate) ↔ now - t1 < 90 * secondsPerDay := by
  rw [enviar_model_duplicate_iff]
  have hscan : duplicate_scan now [mkStoredCandidate { cpf := cpf, vaga := vaga } t1 gid]
      cpf vaga = decide (daysBetween now t1 < 90) := by
    simp [duplicate_scan, duplicate_entry_hit, matchesKey, mkStoredCandidate]
  rw [hscan]
  simp [daysBetween_lt_90_iff]

/-- Claim C5 (counterexample): when the GitHub fetch yields nothing
(every network path failed), `get_vagas` does store the substituted
default list in the cache slot — the fallback IS cached, refuting
"never cache negative results". -/
theorem fallback_is_cached :
    (get_vagas_model none (Except.ok [])).cacheAfter ≠ none := by
  decide

/-- Claim C5 (amended): on a cache miss with an empty fetch result
(every network path failed), `get_vagas` returns the nine-entry default
list (at least 4 entries) and caches it, so the next call is served
from the cache; only the unexpected-exception branch returns the
four-entry fallback without touching the cache; a cache hit is returned
unchanged. -/
theorem get_vagas_fallback_behaviour (fetch : Except Unit (List Vaga)) (v : List Vaga) :
    get_vagas_model none (Except.ok []) =
      { response := default_vagas, cacheAfter := some default_vagas } ∧
    4 ≤ default_vagas.length ∧
    get_vagas_model none (Except.error ()) =
      { response := fallback_vagas, cacheAfter := none } ∧
    get_vagas_model (some v) fetch = { response := v, cacheAfter := some v } :=
  ⟨rfl, by decide, rfl, rfl⟩

/-- Claim C6: an attachment of exactly 5 MiB passes the size check and
the store PUT is issued; an attachment of any length strictly above
5 MiB is rejected with the size-limit failure and no store action is
issued at all. -/
theorem curriculum_size_ceiling (branch path : String) (env : CurriculumEnv) (extra : Nat) :
    (save_curriculum_model (5 * 1024 * 1024) branch path env).2 ≠
      Except.error CurriculumError.sizeLimit ∧
    (save_curriculum_model (5 * 1024 * 1024) branch path env).1.head? =
      some (StoreAction.put path) ∧
    save_curriculum_model (5 * 1024 * 1024 + (extra + 1)) branch path env =
      ([], Except.error CurriculumError.sizeLimit) := by
  obtain ⟨fp, cf, sp⟩ := env
  have hle : ¬ (5 * 1024 * 1024 > 5 * 1024 * 1024) := by omega
  have hgt : 5 * 1024 * 1024 + (extra + 1) > 5 * 1024 * 1024 := by omega
  refine ⟨?_, ?_, ?_⟩
  · cases fp <;> cases cf <;> cases sp <;> simp [save_curriculum_model, hle]
  · cases fp <;> cases cf <;> cases sp <;> simp [save_curriculum_model, hle]
  · simp [save_curriculum_model, hgt]

/-- Claim C7: in the submission flow, `save_candidate` is invoked only
after the attachment store reported success — whenever
`save_curriculum_to_github` fails (including after its one retry), the
record write never happens, and conversely an invocation of
`save_candidate` implies the attachment write returned a URL. -/
theorem record_only_after_attachment (clen : Nat) (branch path : String)
    (env : CurriculumEnv) (saveOk dup : Bool) :
    (∀ e : CurriculumError,
        (save_curriculum_model clen branch path env).2 = .error e →
        (enviar_model dup (save_curriculum_model clen branch path env).2 saveOk).2 = false) ∧
    ((enviar_model dup (save_curriculum_model clen branch path env).2 saveOk).2 = true →
        ∃ url, (save_curriculum_model clen branch path env).2 = .ok url) := by
  constructor
  · intro e he
    rw [he]
    cases dup <;> cases e <;> simp [enviar_model]
  · intro hinv
    cases hcurr : (save_curriculum_model clen branch path env).2 with
    | ok url => exact ⟨url, rfl⟩
    | error e =>
      rw [hcurr] at hinv
      cases dup <;> cases e <;> simp [enviar_model] at hinv

/-- Claim C7 (witness): with a failing attachment store,
`save_candidate` is not invoked on a concrete submission. -/
theorem record_only_after_attachment_witness :
    (enviar_model false
        (save_curriculum_model 0 "main" "curriculos/x.pdf"
          ⟨.otherError, true, .created⟩).2 true).2 = false :=
  (record_only_after_attachment 0 "main" "curriculos/x.pdf"
      ⟨.otherError, true, .created⟩ true false).1 .storeFailure rfl

/-- Claim C8: when the read of `candidatos.json` fails — any non-200
status, a 404 (whether or not the lazy creation works), or an exception
(network error or undecodable content) — `get_existing_candidates`
returns the empty list, and the deduplication scan over that empty list
finds no duplicate, so the submission proceeds. -/
theorem store_unavailable_dedup_passes (now : Int) (cpf vaga : String)
    (clean created : Bool) :
    get_existing_candidates_model .otherStatus clean now = [] ∧
    get_existing_candidates_model .exception clean now = [] ∧
    get_existing_candidates_model (.notFound created) clean now = [] ∧
    duplicate_scan now (get_existing_candidates_model .otherStatus clean now) cpf vaga
      = false := by
  cases clean <;> exact ⟨rfl, rfl, rfl, rfl⟩

/-- Claim C9: a record whose `enviado_em` is missing or unparsable is
never classified as expired, is kept by every sweep's rewritten
document, and always appears in the active-records listing, for every
current time. -/
theorem dateless_record_immortal (now : Int) (c : Candidate)
    (hdate : c.enviado_em = .missing ∨ c.enviado_em = .unparsable) :
    is_candidate_expired now c = false ∧
    (∀ branch cs, c ∈ cs → c ∈ (sweepCore now branch cs).newDocument) ∧
    (∀ cs, c ∈ cs → c ∈ get_candidatos_ativos_model (.ok cs) now) := by
  have hexp : is_candidate_expired now c = false := by
    rcases hdate with h | h <;> simp [is_candidate_expired, h]
  refine ⟨hexp, ?_, ?_⟩
  · intro branch cs hmem
    rw [sweepCore_spec]
    exact List.mem_filter.mpr ⟨hmem, by simp [hexp]⟩
  · intro cs hmem
    unfold get_candidatos_ativos_model get_existing_candidates_model
    simp only [if_true]
    exact List.mem_filter.mpr ⟨List.mem_filter.mpr ⟨hmem, by simp [hexp]⟩, by simp [hexp]⟩

/-- Claim C9 (witness): a concrete record with no `enviado_em` key is
not expired, survives a concrete sweep and is listed as active. -/
theorem dateless_record_immortal_witness :
    is_candidate_expired (90 * secondsPerDay) missingDateCandidate = false ∧
    missingDateCandidate ∈
      (sweepCore (90 * secondsPerDay) "main" [missingDateCandidate]).newDocument ∧
    missingDateCandidate ∈
      get_candidatos_ativos_model (.ok [missingDateCandidate]) (90 * secondsPerDay) := by
  obtain ⟨h1, h2, h3⟩ :=
    dateless_record_immortal (90 * secondsPerDay) missingDateCandidate (Or.inl rfl)
  exact ⟨h1, h2 "main" [missingDateCandidate] (by simp),
         h3 [missingDateCandidate] (by simp)⟩

/-- Claim C10: when the separate sha lookup in `save_candidate` fails
(non-200/404 status or a request exception), the PUT is still issued,
carrying no `sha` field at all — an unversioned blind write. -/
theorem sha_lookup_failure_blind_write (firstRead : List Candidate) (input : Candidate)
    (now : Int) (genId : String) :
    save_candidate_model firstRead .failed input now genId =
      some { newContent := firstRead ++ [mkStoredCandidate input now genId],
             shaField := none } := rfl

end Candidatos
